import Mathlib

/-!
Shallow embedding of `src/vdrone.ino` (Spresense camera + ELTRES telemetry
sketch) and verification of the specification's claims about it.

The embedding mirrors the sketch's globals as a `SysState` record, the
asynchronous ELTRES event callback as a function on that record, one
iteration of `loop()` as a state-and-output transition, `setup()` as a
function of the fallible start-up steps' results, and the pure helpers
(`setup_payload_detection`, the preprocessing loop, the crop-rectangle
constants) as pure functions.  Machine integers are modelled as `Nat`/`Int`
with explicit `% 2 ^ 32` (resp. `emod`) where C unsigned (resp. two's
complement) wrap-around matters; pixel samples are modelled in `ℚ`.
-/

namespace VDrone

/-- `INPUT_WIDTH` (model-input width, 56). -/
def INPUT_WIDTH : Nat := 56

/-- `INPUT_HEIGHT` (model-input height, 56). -/
def INPUT_HEIGHT : Nat := 56

/-- `INPUT_RESIZE_RATIO` (down-scale ratio, a power of two). -/
def INPUT_RESIZE_RATIO : Nat := 4

/-- `PICTURE_WIDTH` = `CAM_IMGSIZE_QVGA_H` = 320. -/
def PICTURE_WIDTH : Nat := 320

/-- `PICTURE_HEIGTH` (sic) = `CAM_IMGSIZE_QVGA_V` = 240. -/
def PICTURE_HEIGTH : Nat := 240

/-- `PICTURE_CLIP_WIDTH = INPUT_WIDTH * INPUT_RESIZE_RATIO`. -/
def PICTURE_CLIP_WIDTH : Nat := INPUT_WIDTH * INPUT_RESIZE_RATIO

/-- `PICTURE_CLIP_HEIGHT = INPUT_HEIGHT * INPUT_RESIZE_RATIO`. -/
def PICTURE_CLIP_HEIGHT : Nat := INPUT_HEIGHT * INPUT_RESIZE_RATIO

/-- `int lefttop_x = (PICTURE_WIDTH - PICTURE_CLIP_WIDTH) / 2;` (C `int`). -/
def lefttop_x : Int := ((PICTURE_WIDTH : Int) - (PICTURE_CLIP_WIDTH : Int)) / 2

/-- `int lefttop_y = (PICTURE_HEIGTH - PICTURE_CLIP_HEIGHT) / 2;`. -/
def lefttop_y : Int := ((PICTURE_HEIGTH : Int) - (PICTURE_CLIP_HEIGHT : Int)) / 2

/-- `int rightbottom_x = lefttop_x + PICTURE_CLIP_WIDTH - 1;`. -/
def rightbottom_x : Int := lefttop_x + (PICTURE_CLIP_WIDTH : Int) - 1

/-- `int rightbottom_y = lefttop_y + PICTURE_CLIP_HEIGHT - 1;`. -/
def rightbottom_y : Int := lefttop_y + (PICTURE_CLIP_HEIGHT : Int) - 1

/-- Cast of a C `long` to `int16_t` (two's-complement wrap into
`[-2^15, 2^15)`), as applied at the call `setup_payload_detection((int16_t)flag)`. -/
def i16cast (x : Int) : Int := (x + 2 ^ 15).emod (2 ^ 16) - 2 ^ 15

/-- `setup_payload_detection(int16_t flag)`: builds the 16-byte payload from
the flag, the last GGA fix quality (`last_gga_info.m_pos_status`, byte 15)
and the GNSS epoch time (`uint32_t`).  `utc_time = gnss_time - 18` is C
`uint32_t` arithmetic, hence the explicit `% 2 ^ 32`; byte 1 is
`(uint8_t)(flag & 0xff)`, i.e. the low 8 bits of the two's-complement flag;
bytes 10..13 are `utc_time` big-endian; the `memset` zero-fills the rest. -/
def setup_payload_detection (flag : Int) (pos_status : Nat) (gnss_time : Nat) : List Nat :=
  let utc_time : Nat := (gnss_time + (2 ^ 32 - 18)) % 2 ^ 32
  [0x8A,
   (flag.emod 256).toNat,
   0, 0, 0, 0, 0, 0, 0, 0,
   utc_time / 2 ^ 24 % 256,
   utc_time / 2 ^ 16 % 256,
   utc_time / 2 ^ 8 % 256,
   utc_time % 256,
   0x00,
   pos_status]

/-- Big-endian decoding of payload bytes 10..13 (the UTC-corrected time). -/
def payload_time (p : List Nat) : Nat :=
  p.getD 10 0 * 2 ^ 24 + p.getD 11 0 * 2 ^ 16 + p.getD 12 0 * 2 ^ 8 + p.getD 13 0

/-- Reading the bytes of an explicit 16-element list. -/
theorem list16_getD (x0 x1 x2 x3 x4 x5 x6 x7 x8 x9 y10 y11 y12 y13 x14 x15 : Nat) :
    ([x0, x1, x2, x3, x4, x5, x6, x7, x8, x9, y10, y11, y12, y13, x14, x15].length = 16) ∧
    ([x0, x1, x2, x3, x4, x5, x6, x7, x8, x9, y10, y11, y12, y13, x14, x15].getD 0 0 = x0) ∧
    ([x0, x1, x2, x3, x4, x5, x6, x7, x8, x9, y10, y11, y12, y13, x14, x15].getD 1 0 = x1) ∧
    ([x0, x1, x2, x3, x4, x5, x6, x7, x8, x9, y10, y11, y12, y13, x14, x15].getD 2 0 = x2) ∧
    ([x0, x1, x2, x3, x4, x5, x6, x7, x8, x9, y10, y11, y12, y13, x14, x15].getD 3 0 = x3) ∧
    ([x0, x1, x2, x3, x4, x5, x6, x7, x8, x9, y10, y11, y12, y13, x14, x15].getD 4 0 = x4) ∧
    ([x0, x1, x2, x3, x4, x5, x6, x7, x8, x9, y10, y11, y12, y13, x14, x15].getD 5 0 = x5) ∧
    ([x0, x1, x2, x3, x4, x5, x6, x7, x8, x9, y10, y11, y12, y13, x14, x15].getD 6 0 = x6) ∧
    ([x0, x1, x2, x3, x4, x5, x6, x7, x8, x9, y10, y11, y12, y13, x14, x15].getD 7 0 = x7) ∧
    ([x0, x1, x2, x3, x4, x5, x6, x7, x8, x9, y10, y11, y12, y13, x14, x15].getD 8 0 = x8) ∧
    ([x0, x1, x2, x3, x4, x5, x6, x7, x8, x9, y10, y11, y12, y13, x14, x15].getD 9 0 = x9) ∧
    ([x0, x1, x2, x3, x4, x5, x6, x7, x8, x9, y10, y11, y12, y13, x14, x15].getD 14 0 = x14) ∧
    ([x0, x1, x2, x3, x4, x5, x6, x7, x8, x9, y10, y11, y12, y13, x14, x15].getD 15 0 = x15) :=
  ⟨rfl, rfl, rfl, rfl, rfl, rfl, rfl, rfl, rfl, rfl, rfl, rfl, rfl⟩

/-- `payload_time` on an explicit 16-element list. -/
theorem payload_time_list (x0 x1 x2 x3 x4 x5 x6 x7 x8 x9 y10 y11 y12 y13 x14 x15 : Nat) :
    payload_time [x0, x1, x2, x3, x4, x5, x6, x7, x8, x9, y10, y11, y12, y13, x14, x15] =
      y10 * 2 ^ 24 + y11 * 2 ^ 16 + y12 * 2 ^ 8 + y13 := rfl

/-- Byte-level characterization of `setup_payload_detection`. -/
theorem setup_payload_detection_getD (flag : Int) (q g : Nat) :
    ((setup_payload_detection flag q g).length = 16) ∧
    ((setup_payload_detection flag q g).getD 0 0 = 0x8A) ∧
    ((setup_payload_detection flag q g).getD 1 0 = (flag.emod 256).toNat) ∧
    ((setup_payload_detection flag q g).getD 2 0 = 0) ∧
    ((setup_payload_detection flag q g).getD 3 0 = 0) ∧
    ((setup_payload_detection flag q g).getD 4 0 = 0) ∧
    ((setup_payload_detection flag q g).getD 5 0 = 0) ∧
    ((setup_payload_detection flag q g).getD 6 0 = 0) ∧
    ((setup_payload_detection flag q g).getD 7 0 = 0) ∧
    ((setup_payload_detection flag q g).getD 8 0 = 0) ∧
    ((setup_payload_detection flag q g).getD 9 0 = 0) ∧
    ((setup_payload_detection flag q g).getD 14 0 = 0) ∧
    ((setup_payload_detection flag q g).getD 15 0 = q) := by
  simp only [setup_payload_detection]
  exact list16_getD _ _ _ _ _ _ _ _ _ _ _ _ _ _ _ _

/-- `payload_time` of an encoded payload, before any range assumption. -/
theorem payload_time_setup_payload (flag : Int) (q g : Nat) :
    payload_time (setup_payload_detection flag q g) =
      (g + (2 ^ 32 - 18)) % 2 ^ 32 / 2 ^ 24 % 256 * 2 ^ 24 +
      (g + (2 ^ 32 - 18)) % 2 ^ 32 / 2 ^ 16 % 256 * 2 ^ 16 +
      (g + (2 ^ 32 - 18)) % 2 ^ 32 / 2 ^ 8 % 256 * 2 ^ 8 +
      (g + (2 ^ 32 - 18)) % 2 ^ 32 % 256 := by
  simp only [setup_payload_detection]
  rw [payload_time_list]

/-- C1: the payload encoder is a total deterministic function producing
exactly 16 bytes: byte 0 is the tag `0x8A`, byte 1 the low 8 bits of the
two's-complement flag, bytes 2..9 zero, bytes 10..13 the 32-bit big-endian
encoding of `gnss_time - 18`, byte 14 zero and byte 15 the fix quality;
moreover `encode(0, 0, 18)` has byte 0 = `0x8A` and every other defined byte
zero, `encode(_, _, 1000018)`'s bytes 10..13 decode to 1000000, and
`encode(-1, _, _)` has byte 1 = `0xFF`. -/
theorem payload_encoder_spec (flag : Int) (q g : Nat) (hg : 18 ≤ g) (hg2 : g < 2 ^ 32) :
    (setup_payload_detection flag q g).length = 16 ∧
    (setup_payload_detection flag q g).getD 0 0 = 0x8A ∧
    (setup_payload_detection flag q g).getD 1 0 = (flag.emod 256).toNat ∧
    (∀ k, 2 ≤ k → k ≤ 9 → (setup_payload_detection flag q g).getD k 0 = 0) ∧
    payload_time (setup_payload_detection flag q g) = g - 18 ∧
    (setup_payload_detection flag q g).getD 14 0 = 0 ∧
    (setup_payload_detection flag q g).getD 15 0 = q ∧
    setup_payload_detection 0 0 18 = [0x8A, 0, 0, 0, 0, 0, 0, 0, 0, 0, 0, 0, 0, 0, 0, 0] ∧
    payload_time (setup_payload_detection 0 0 1000018) = 1000000 ∧
    (setup_payload_detection (-1) 0 18).getD 1 0 = 0xFF := by
  obtain ⟨h0, h1, h2, e2, e3, e4, e5, e6, e7, e8, e9, h14, h15⟩ :=
    setup_payload_detection_getD flag q g
  refine ⟨h0, h1, h2, ?_, ?_, h14, h15, by decide, by decide, by decide⟩
  · intro k hk2 hk9
    interval_cases k <;> assumption
  · rw [payload_time_setup_payload]
    omega

/-- Witness for C1 at flag 5, quality 7, clock 1018 (1018 − 18 = 1000). -/
theorem payload_encoder_spec_witness :
    payload_time (setup_payload_detection 5 7 1018) = 1000 ∧
    (setup_payload_detection 5 7 1018).getD 15 0 = 7 := by
  have h := payload_encoder_spec 5 7 1018 (by decide) (by decide)
  exact ⟨h.2.2.2.2.1, h.2.2.2.2.2.2.1⟩

/-- C10: the leap-second correction is unsigned 32-bit arithmetic: for a
radio clock value below 18 the subtraction wraps modulo `2 ^ 32`, so bytes
10..13 encode `gnss_time + (2 ^ 32 - 18)` — a value near `2 ^ 32` — rather
than failing or clamping to zero. -/
theorem payload_time_wraps (flag : Int) (q g : Nat) (hg : g < 18) :
    payload_time (setup_payload_detection flag q g) = g + (2 ^ 32 - 18) ∧
    2 ^ 32 - 18 ≤ payload_time (setup_payload_detection flag q g) ∧
    payload_time (setup_payload_detection flag q g) ≠ 0 := by
  have h : payload_time (setup_payload_detection flag q g) = g + (2 ^ 32 - 18) := by
    rw [payload_time_setup_payload]
    omega
  exact ⟨h, by omega, by omega⟩

/-- Witness for C10 at clock 0: bytes 10..13 decode to `2 ^ 32 - 18`. -/
theorem payload_time_wraps_witness :
    payload_time (setup_payload_detection 0 0 0) = 4294967278 :=
  (payload_time_wraps 0 0 0 (by decide)).1

/-- C7: the crop rectangle is centred — `lefttop_x = (PICTURE_WIDTH −
PICTURE_CLIP_WIDTH)/2` and symmetrically for y — and for the fixed capture
size 320×240 and clip size 56·4 = 224 it lies entirely inside the capture
bounds, with no negative offsets. -/
theorem crop_rectangle_centered :
    lefttop_x = ((PICTURE_WIDTH : Int) - (PICTURE_CLIP_WIDTH : Int)) / 2 ∧
    lefttop_y = ((PICTURE_HEIGTH : Int) - (PICTURE_CLIP_HEIGHT : Int)) / 2 ∧
    PICTURE_CLIP_WIDTH = INPUT_WIDTH * INPUT_RESIZE_RATIO ∧
    PICTURE_CLIP_HEIGHT = INPUT_HEIGHT * INPUT_RESIZE_RATIO ∧
    0 ≤ lefttop_x ∧ 0 ≤ lefttop_y ∧
    lefttop_x ≤ rightbottom_x ∧ lefttop_y ≤ rightbottom_y ∧
    rightbottom_x < (PICTURE_WIDTH : Int) ∧ rightbottom_y < (PICTURE_HEIGTH : Int) := by
  refine ⟨rfl, rfl, rfl, rfl, ?_, ?_, ?_, ?_, ?_, ?_⟩ <;> decide

/-- `PROGRAM_STS_INIT` (0). -/
def PROGRAM_STS_INIT : Nat := 0

/-- `PROGRAM_STS_RUNNING` (1). -/
def PROGRAM_STS_RUNNING : Nat := 1

/-- `PROGRAM_STS_STOPPED` (3). -/
def PROGRAM_STS_STOPPED : Nat := 3

/-- LED pin ids (`PIN_LED0..PIN_LED3`), abstracted to indices. -/
def LED_RUN : Nat := 0

/-- `PIN_LED1`: GNSS indicator. -/
def LED_GNSS : Nat := 1

/-- `PIN_LED2`: sending indicator. -/
def LED_SND : Nat := 2

/-- `PIN_LED3`: error indicator. -/
def LED_ERR : Nat := 3

/-- The sketch's global mutable state: `program_sts`,
`gnss_recevie_timeout` (sic), `last_change_blink_time`, `event_send_ready`,
the `payload[16]` buffer, `flag`, `last_gga_info.m_pos_status` (the only
field of `last_gga_info` the rest of the program reads), and the four LED
levels (`true` = HIGH). -/
structure SysState where
  program_sts : Nat
  gnss_recevie_timeout : Bool
  last_change_blink_time : Nat
  event_send_ready : Bool
  payload : List Nat
  flag : Int
  last_gga_pos_status : Nat
  led_run : Bool
  led_gnss : Bool
  led_snd : Bool
  led_err : Bool
deriving DecidableEq

/-- The `eltres_board_event` values the callback handles. -/
inductive EltresEvent
  | gnss_tmout
  | idle
  | send_ready
  | sending
  | gnss_unreceive
  | gnss_receive
  | fault
deriving DecidableEq

/-- `eltres_event_cb`: the asynchronous ELTRES event callback.  Serial
prints are not modelled; the state updates mirror the `switch` exactly. -/
def eltres_event_cb (event : EltresEvent) (s : SysState) : SysState :=
  match event with
  | .gnss_tmout => { s with gnss_recevie_timeout := true }
  | .idle => { s with led_snd := false }
  | .send_ready => { s with event_send_ready := true }
  | .sending => { s with led_snd := true }
  | .gnss_unreceive => { s with led_gnss := false }
  | .gnss_receive => { s with led_gnss := true, gnss_recevie_timeout := false }
  | .fault => s

/-- `gga_event_cb`: overwrites `last_gga_info` unconditionally (only
`m_pos_status` is modelled; the invalid-fix branch only prints). -/
def gga_event_cb (pos_status : Nat) (s : SysState) : SysState :=
  { s with last_gga_pos_status := pos_status }

/-- The per-iteration environment of `loop()`: the `random(0, 2)` draw, the
pass/fail results of the three camera calls, the inference output
`output[0]` (a float, modelled in `ℚ`), `millis()`, and the clock value
`get_gnss_time` yields. -/
structure TickInput where
  randomFlag : Int
  captureOk : Bool
  resizeOk : Bool
  convertOk : Bool
  value : ℚ
  now : Nat
  gnss_time : Nat
deriving DecidableEq

/-- The externally observable actions of one `loop()` iteration:
`digitalWrite`s issued by the iteration (pin, level), payloads handed to
`EltresAddonBoard.set_payload`, and whether the `if (value)` diagnostic
branch fired. -/
structure TickOutput where
  led_writes : List (Nat × Bool)
  payloads_sent : List (List Nat)
  detection_reported : Bool
deriving DecidableEq

/-- One iteration of `loop()`.  `flag = random(0, 2)` happens first; a
capture / resize / convert failure returns early; the inference result
feeds only the `if (value)` print; then the `switch (program_sts)` runs the
blink logic and, on `event_send_ready`, clears the flag, rebuilds the
payload from `(int16_t)flag` and hands it to the radio board. -/
def loop (i : TickInput) (s : SysState) : SysState × TickOutput :=
  let s0 := { s with flag := i.randomFlag }
  if i.captureOk = false then (s0, ⟨[], [], false⟩)
  else if i.resizeOk = false then (s0, ⟨[], [], false⟩)
  else if i.convertOk = false then (s0, ⟨[], [], false⟩)
  else
    let rep := decide (i.value ≠ 0)
    if s0.program_sts = PROGRAM_STS_RUNNING then
      let sw : SysState × List (Nat × Bool) :=
        if s0.gnss_recevie_timeout then
          if 1000 ≤ i.now - s0.last_change_blink_time then
            ({ s0 with last_change_blink_time := i.now, led_err := !s0.led_err },
             [(LED_ERR, !s0.led_err)])
          else (s0, [])
        else ({ s0 with led_err := false }, [(LED_ERR, false)])
      let sp : SysState × List (List Nat) :=
        if sw.1.event_send_ready then
          let p := setup_payload_detection (i16cast sw.1.flag) sw.1.last_gga_pos_status i.gnss_time
          ({ sw.1 with event_send_ready := false, payload := p }, [p])
        else (sw.1, [])
      (sp.1, ⟨sw.2, sp.2, rep⟩)
    else (s0, ⟨[], [], rep⟩)

/-- Iterating `loop` over a list of tick environments, collecting outputs. -/
def runTicks : List TickInput → SysState → SysState × List TickOutput
  | [], s => (s, [])
  | i :: ts, s =>
    let r := loop i s
    let rest := runTicks ts r.1
    (rest.1, r.2 :: rest.2)

/-- Global state right after the pin initialisation at the top of
`setup()`: LED_RUN driven HIGH, the other LEDs LOW, every global at its C
zero-initialised value. -/
def initialState : SysState :=
  { program_sts := PROGRAM_STS_INIT
    gnss_recevie_timeout := false
    last_change_blink_time := 0
    event_send_ready := false
    payload := List.replicate 16 0
    flag := 0
    last_gga_pos_status := 0
    led_run := true
    led_gnss := false
    led_snd := false
    led_err := false }

/-- Results of the fallible start-up calls in `setup()`:
`EltresAddonBoard.begin`, `SD.open("network.nnb")`, `dnnrt.begin`,
`theCamera.begin`, `theCamera.setStillPictureImageFormat`. -/
structure SetupInput where
  eltresOk : Bool
  nnbFound : Bool
  dnnrtRet : Int
  camBeginOk : Bool
  camFormatOk : Bool
deriving DecidableEq

/-- The diagnostic messages the start-up failure paths print. -/
inductive StartupReport
  | eltres_fail
  | nnb_not_found
  | dnnrt_fail
  | cam_init_fail
  | cam_format_fail
deriving DecidableEq

/-- Outcome of `setup()`: the global state it leaves behind, whether it
called `exit(0)`, and which failure reports it printed. -/
structure SetupResult where
  state : SysState
  exited : Bool
  reports : List StartupReport
deriving DecidableEq

/-- `setup()`.  An ELTRES `begin` failure drives LED_RUN LOW and LED_ERR
HIGH, sets `program_sts = PROGRAM_STS_STOPPED` and returns; the four later
failures (missing `network.nnb`, `dnnrt.begin < 0`, `theCamera.begin`,
`setStillPictureImageFormat`) print and call `exit(0)`, touching neither
the LEDs nor `program_sts`; on full success `program_sts` becomes
`PROGRAM_STS_RUNNING`. -/
def setup (inp : SetupInput) : SetupResult :=
  if inp.eltresOk = false then
    { state := { initialState with
        led_run := false
        led_err := true
        program_sts := PROGRAM_STS_STOPPED }
      exited := false
      reports := [.eltres_fail] }
  else if inp.nnbFound = false then
    { state := initialState, exited := true, reports := [.nnb_not_found] }
  else if inp.dnnrtRet < 0 then
    { state := initialState, exited := true, reports := [.dnnrt_fail] }
  else if inp.camBeginOk = false then
    { state := initialState, exited := true, reports := [.cam_init_fail] }
  else if inp.camFormatOk = false then
    { state := initialState, exited := true, reports := [.cam_format_fail] }
  else
    { state := { initialState with program_sts := PROGRAM_STS_RUNNING }
      exited := false
      reports := [] }

/-- `loop` never changes `program_sts`. -/
theorem loop_program_sts (i : TickInput) (s : SysState) :
    (loop i s).1.program_sts = s.program_sts := by
  simp only [loop]
  split_ifs <;> simp

/-- `loop` never changes `gnss_recevie_timeout`. -/
theorem loop_gnss_flag (i : TickInput) (s : SysState) :
    (loop i s).1.gnss_recevie_timeout = s.gnss_recevie_timeout := by
  simp only [loop]
  split_ifs <;> simp

/-- With `event_send_ready` clear, `loop` keeps it clear and sends nothing. -/
theorem loop_no_send_ready (i : TickInput) (s : SysState) (h : s.event_send_ready = false) :
    (loop i s).1.event_send_ready = false ∧ (loop i s).2.payloads_sent = [] := by
  simp only [loop]
  split_ifs <;> simp_all

/-- In RUNNING with `event_send_ready` set and the frame pipeline
succeeding, `loop` clears the flag and hands over exactly the payload built
from the tick's random flag and the stored fix quality. -/
theorem loop_consume_send_ready (i : TickInput) (s : SysState)
    (hs : s.program_sts = PROGRAM_STS_RUNNING) (hr : s.event_send_ready = true)
    (h1 : i.captureOk = true) (h2 : i.resizeOk = true) (h3 : i.convertOk = true) :
    (loop i s).1.event_send_ready = false ∧
    (loop i s).2.payloads_sent =
      [setup_payload_detection (i16cast i.randomFlag) s.last_gga_pos_status i.gnss_time] := by
  simp only [loop]
  split_ifs <;> simp_all

/-- In STOPPED, a `loop` iteration stays STOPPED and emits no LED write and
no payload. -/
theorem loop_stopped (i : TickInput) (s : SysState)
    (h : s.program_sts = PROGRAM_STS_STOPPED) :
    (loop i s).1.program_sts = PROGRAM_STS_STOPPED ∧
    (loop i s).2.led_writes = [] ∧ (loop i s).2.payloads_sent = [] := by
  simp only [loop]
  split_ifs <;> simp_all [PROGRAM_STS_STOPPED, PROGRAM_STS_RUNNING]

/-- Iterated form of `loop_stopped`, shared by the terminality results. -/
theorem runTicks_stopped (ts : List TickInput) (s : SysState)
    (h : s.program_sts = PROGRAM_STS_STOPPED) :
    (runTicks ts s).1.program_sts = PROGRAM_STS_STOPPED ∧
    ∀ o ∈ (runTicks ts s).2, o.led_writes = [] ∧ o.payloads_sent = [] := by
  induction ts generalizing s with
  | nil => exact ⟨h, by simp [runTicks]⟩
  | cons i ts ih =>
    obtain ⟨h1, h2, h3⟩ := loop_stopped i s h
    obtain ⟨h4, h5⟩ := ih (loop i s).1 h1
    refine ⟨by simpa [runTicks] using h4, ?_⟩
    intro o ho
    simp only [runTicks, List.mem_cons] at ho
    rcases ho with rfl | ho
    · exact ⟨h2, h3⟩
    · exact h5 o ho

/-- C8: once `program_sts` is `PROGRAM_STS_STOPPED` it stays so, and no
subsequent `loop` iteration issues any indicator `digitalWrite` or hands a
payload to `EltresAddonBoard.set_payload`. -/
theorem stopped_is_terminal (s : SysState) (ts : List TickInput)
    (h : s.program_sts = PROGRAM_STS_STOPPED) :
    (runTicks ts s).1.program_sts = PROGRAM_STS_STOPPED ∧
    ∀ o ∈ (runTicks ts s).2, o.led_writes = [] ∧ o.payloads_sent = [] :=
  runTicks_stopped ts s h

/-- Witness for C8: a stopped state run through two concrete ticks. -/
theorem stopped_is_terminal_witness :
    (runTicks [⟨0, true, true, true, 0, 0, 0⟩, ⟨1, true, true, true, 1, 2000, 50⟩]
        { initialState with program_sts := 3 }).1.program_sts = PROGRAM_STS_STOPPED :=
  (stopped_is_terminal { initialState with program_sts := 3 }
      [⟨0, true, true, true, 0, 0, 0⟩, ⟨1, true, true, true, 1, 2000, 50⟩] rfl).1

/-- C4 counterexample: the GNSS-timeout flag is taken from `true` to
`false` by the Radio Event Handler itself (on the fix-acquired event), not
by the Main Cycle Orchestrator. -/
theorem gnss_timeout_cleared_by_handler :
    ({ initialState with gnss_recevie_timeout := true } : SysState).gnss_recevie_timeout
        = true ∧
    (eltres_event_cb EltresEvent.gnss_receive
        { initialState with gnss_recevie_timeout := true }).gnss_recevie_timeout = false :=
  ⟨rfl, rfl⟩

/-- C4 amended: both flags are set to `true` only by the event callback
(`gnss_tmout` resp. `send_ready`); `event_send_ready` is cleared only by
the main loop and `gnss_recevie_timeout` only by the event callback (on
`gnss_receive`) — the main loop never modifies it — and the GGA callback
touches neither flag. -/
theorem coordination_flag_writers :
    (∀ i s, (loop i s).1.gnss_recevie_timeout = s.gnss_recevie_timeout) ∧
    (∀ i s, (loop i s).1.event_send_ready = true → s.event_send_ready = true) ∧
    (∀ e s, (eltres_event_cb e s).event_send_ready = false → s.event_send_ready = false) ∧
    (∀ e s, (eltres_event_cb e s).gnss_recevie_timeout = true →
        s.gnss_recevie_timeout = true ∨ e = EltresEvent.gnss_tmout) ∧
    (∀ e s, (eltres_event_cb e s).gnss_recevie_timeout = false →
        s.gnss_recevie_timeout = false ∨ e = EltresEvent.gnss_receive) ∧
    (∀ e s, (eltres_event_cb e s).event_send_ready = true →
        s.event_send_ready = true ∨ e = EltresEvent.send_ready) ∧
    (∀ q s, (gga_event_cb q s).gnss_recevie_timeout = s.gnss_recevie_timeout ∧
        (gga_event_cb q s).event_send_ready = s.event_send_ready) := by
  refine ⟨loop_gnss_flag, ?_, ?_, ?_, ?_, ?_, ?_⟩
  · intro i s h
    by_contra hc
    have hf : s.event_send_ready = false := by
      cases hs : s.event_send_ready
      · rfl
      · exact absurd hs hc
    have := (loop_no_send_ready i s hf).1
    rw [this] at h
    exact Bool.false_ne_true h
  · intro e s h
    cases e <;> simp_all [eltres_event_cb]
  · intro e s h
    cases e <;> simp_all [eltres_event_cb]
  · intro e s h
    cases e <;> simp_all [eltres_event_cb]
  · intro e s h
    cases e <;> simp_all [eltres_event_cb]
  · intro q s
    exact ⟨rfl, rfl⟩

/-- Witness for C4's amended theorem at a concrete event and state. -/
theorem coordination_flag_writers_witness :
    ({ initialState with gnss_recevie_timeout := true } : SysState).gnss_recevie_timeout
        = true ∨ EltresEvent.gnss_tmout = EltresEvent.gnss_tmout :=
  coordination_flag_writers.2.2.2.1 EltresEvent.gnss_tmout
    { initialState with gnss_recevie_timeout := true } rfl

/-- C5: setting `event_send_ready` via the event path and then running one
`loop` iteration in RUNNING (with the frame pipeline succeeding) clears the
flag and hands over exactly one payload; a second iteration with no new
event hands over none. -/
theorem send_ready_round_trip (s : SysState) (i1 i2 : TickInput)
    (hs : s.program_sts = PROGRAM_STS_RUNNING)
    (h1 : i1.captureOk = true) (h2 : i1.resizeOk = true) (h3 : i1.convertOk = true) :
    (loop i1 (eltres_event_cb EltresEvent.send_ready s)).2.payloads_sent.length = 1 ∧
    (loop i1 (eltres_event_cb EltresEvent.send_ready s)).1.event_send_ready = false ∧
    (loop i2 (loop i1 (eltres_event_cb EltresEvent.send_ready s)).1).2.payloads_sent.length
      = 0 := by
  have hs1 : (eltres_event_cb EltresEvent.send_ready s).program_sts = PROGRAM_STS_RUNNING := hs
  have hr1 : (eltres_event_cb EltresEvent.send_ready s).event_send_ready = true := rfl
  obtain ⟨hc, hp⟩ := loop_consume_send_ready i1 _ hs1 hr1 h1 h2 h3
  obtain ⟨_, hp2⟩ := loop_no_send_ready i2 _ hc
  rw [hp, hp2]
  exact ⟨rfl, hc, rfl⟩

/-- Witness for C5 at a concrete state and two concrete ticks. -/
theorem send_ready_round_trip_witness :
    (loop ⟨1, true, true, true, 0, 0, 30⟩
        (eltres_event_cb EltresEvent.send_ready
          { initialState with program_sts := 1 })).2.payloads_sent.length = 1 :=
  (send_ready_round_trip { initialState with program_sts := 1 }
      ⟨1, true, true, true, 0, 0, 30⟩ ⟨0, true, true, true, 0, 1, 31⟩
      rfl rfl rfl rfl).1

/-- C2 counterexample: a RUNNING tick with the window flag set, a nonzero
inference output (`value = 1`, so the detection branch fires) and random
draw 0 hands over the payload built from flag 0 — its flag byte is 0, not
the 1 a detection-derived flag would produce. -/
theorem payload_not_from_detection :
    (loop ⟨0, true, true, true, 1, 0, 100⟩
        { initialState with
            program_sts := 1
            event_send_ready := true
            last_gga_pos_status := 1 }).2.detection_reported = true ∧
    (loop ⟨0, true, true, true, 1, 0, 100⟩
        { initialState with
            program_sts := 1
            event_send_ready := true
            last_gga_pos_status := 1 }).2.payloads_sent =
      [setup_payload_detection 0 1 100] ∧
    (setup_payload_detection 0 1 100).getD 1 0 = 0 ∧
    (setup_payload_detection 1 1 100).getD 1 0 = 1 := by
  refine ⟨by decide, by decide, ?_, ?_⟩
  · exact (setup_payload_detection_getD 0 1 100).2.2.1.trans (by decide)
  · exact (setup_payload_detection_getD 1 1 100).2.2.1.trans (by decide)

/-- C2 amended: on a RUNNING tick with the window flag set and the frame
pipeline succeeding, the payload handed to the radio board is built from
the tick's `random(0, 2)` draw (cast to `int16_t`) and the stored fix
quality — the inference output has no influence on it: replacing `value`
by any other score leaves the handed payload unchanged. -/
theorem payload_built_from_random_flag (s : SysState) (i : TickInput)
    (hs : s.program_sts = PROGRAM_STS_RUNNING) (hr : s.event_send_ready = true)
    (h1 : i.captureOk = true) (h2 : i.resizeOk = true) (h3 : i.convertOk = true) :
    (loop i s).2.payloads_sent =
      [setup_payload_detection (i16cast i.randomFlag) s.last_gga_pos_status i.gnss_time] ∧
    ∀ v : ℚ, (loop { i with value := v } s).2.payloads_sent =
      (loop i s).2.payloads_sent := by
  obtain ⟨_, hp⟩ := loop_consume_send_ready i s hs hr h1 h2 h3
  refine ⟨hp, fun v => ?_⟩
  obtain ⟨_, hp2⟩ := loop_consume_send_ready { i with value := v } s hs hr h1 h2 h3
  rw [hp, hp2]

/-- Witness for C2's amended theorem at a concrete state and tick. -/
theorem payload_built_from_random_flag_witness :
    (loop ⟨1, true, true, true, (5 : ℚ), 0, 40⟩
        { initialState with
            program_sts := 1
            event_send_ready := true
            last_gga_pos_status := 2 }).2.payloads_sent =
      [setup_payload_detection (i16cast 1) 2 40] :=
  (payload_built_from_random_flag
      { initialState with
          program_sts := 1
          event_send_ready := true
          last_gga_pos_status := 2 }
      ⟨1, true, true, true, (5 : ℚ), 0, 40⟩ rfl rfl rfl rfl rfl).1

/-- C3 counterexample: with the radio board up but `network.nnb` missing,
`setup` reports the missing file once and exits, but the error indicator
stays off and `program_sts` stays `PROGRAM_STS_INIT`, not
`PROGRAM_STS_STOPPED`. -/
theorem nnb_missing_not_latched :
    (setup ⟨true, false, 0, true, true⟩).reports = [StartupReport.nnb_not_found] ∧
    (setup ⟨true, false, 0, true, true⟩).state.led_err = false ∧
    (setup ⟨true, false, 0, true, true⟩).state.program_sts = PROGRAM_STS_INIT ∧
    (setup ⟨true, false, 0, true, true⟩).state.program_sts ≠ PROGRAM_STS_STOPPED := by
  refine ⟨rfl, rfl, rfl, by decide⟩

/-- C3 amended: each start-up failure is reported exactly once and prevents
`program_sts` from ever becoming RUNNING, but only the ELTRES failure
latches the error indicator and sets STOPPED (after which ticks produce no
LED writes and no payloads); the other four failures terminate the program
via `exit(0)` with the error indicator still off and the state still INIT. -/
theorem startup_failure_behaviour (inp : SetupInput) :
    (inp.eltresOk = false →
        (setup inp).reports = [StartupReport.eltres_fail] ∧
        (setup inp).state.led_err = true ∧
        (setup inp).state.led_run = false ∧
        (setup inp).state.program_sts = PROGRAM_STS_STOPPED ∧
        (setup inp).exited = false ∧
        ∀ ts, ∀ o ∈ (runTicks ts (setup inp).state).2,
          o.led_writes = [] ∧ o.payloads_sent = []) ∧
    (inp.eltresOk = true → inp.nnbFound = false →
        (setup inp).reports = [StartupReport.nnb_not_found] ∧
        (setup inp).exited = true ∧
        (setup inp).state.led_err = false ∧
        (setup inp).state.program_sts = PROGRAM_STS_INIT) ∧
    (inp.eltresOk = true → inp.nnbFound = true → inp.dnnrtRet < 0 →
        (setup inp).reports = [StartupReport.dnnrt_fail] ∧
        (setup inp).exited = true ∧
        (setup inp).state.led_err = false ∧
        (setup inp).state.program_sts = PROGRAM_STS_INIT) ∧
    (inp.eltresOk = true → inp.nnbFound = true → 0 ≤ inp.dnnrtRet →
        inp.camBeginOk = false →
        (setup inp).reports = [StartupReport.cam_init_fail] ∧
        (setup inp).exited = true ∧
        (setup inp).state.led_err = false ∧
        (setup inp).state.program_sts = PROGRAM_STS_INIT) ∧
    (inp.eltresOk = true → inp.nnbFound = true → 0 ≤ inp.dnnrtRet →
        inp.camBeginOk = true → inp.camFormatOk = false →
        (setup inp).reports = [StartupReport.cam_format_fail] ∧
        (setup inp).exited = true ∧
        (setup inp).state.led_err = false ∧
        (setup inp).state.program_sts = PROGRAM_STS_INIT) ∧
    ((setup inp).reports ≠ [] →
        (setup inp).state.program_sts ≠ PROGRAM_STS_RUNNING) := by
  refine ⟨?_, ?_, ?_, ?_, ?_, ?_⟩
  · intro h
    have hs : setup inp =
        ⟨{ initialState with led_run := false, led_err := true, program_sts := PROGRAM_STS_STOPPED },
         false, [StartupReport.eltres_fail]⟩ := by
      simp [setup, h]
    rw [hs]
    exact ⟨rfl, rfl, rfl, rfl, rfl, fun ts => (runTicks_stopped ts _ rfl).2⟩
  · intro h1 h2
    have hs : setup inp = ⟨initialState, true, [StartupReport.nnb_not_found]⟩ := by
      simp [setup, h1, h2]
    rw [hs]
    exact ⟨rfl, rfl, rfl, rfl⟩
  · intro h1 h2 h3
    have hs : setup inp = ⟨initialState, true, [StartupReport.dnnrt_fail]⟩ := by
      simp [setup, h1, h2, h3]
    rw [hs]
    exact ⟨rfl, rfl, rfl, rfl⟩
  · intro h1 h2 h3 h4
    have h3n : ¬ inp.dnnrtRet < 0 := not_lt.mpr h3
    have hs : setup inp = ⟨initialState, true, [StartupReport.cam_init_fail]⟩ := by
      simp [setup, h1, h2, h3n, h4]
    rw [hs]
    exact ⟨rfl, rfl, rfl, rfl⟩
  · intro h1 h2 h3 h4 h5
    have h3n : ¬ inp.dnnrtRet < 0 := not_lt.mpr h3
    have hs : setup inp = ⟨initialState, true, [StartupReport.cam_format_fail]⟩ := by
      simp [setup, h1, h2, h3n, h4, h5]
    rw [hs]
    exact ⟨rfl, rfl, rfl, rfl⟩
  · intro hne
    simp only [setup] at hne ⊢
    split_ifs at hne ⊢ <;>
      simp_all [initialState, PROGRAM_STS_RUNNING, PROGRAM_STS_STOPPED, PROGRAM_STS_INIT]

/-- Witness for C3's amended theorem: the camera-format failure path. -/
theorem startup_failure_behaviour_witness :
    (setup ⟨true, true, 0, true, false⟩).reports = [StartupReport.cam_format_fail] ∧
    (setup ⟨true, true, 0, true, false⟩).exited = true ∧
    (setup ⟨true, true, 0, true, false⟩).state.led_err = false ∧
    (setup ⟨true, true, 0, true, false⟩).state.program_sts = PROGRAM_STS_INIT :=
  (startup_failure_behaviour ⟨true, true, 0, true, false⟩).2.2.2.2.1
    rfl rfl (by decide) rfl rfl

/-- The preprocessing double loop of `loop()`:
`input_data[h * INPUT_WIDTH + w] = camera_buf[h * INPUT_WIDTH + w] / 255.0`
for `h < INPUT_HEIGHT`, `w < INPUT_WIDTH`, in row-major order.  The
grayscale buffer is modelled as a function giving each byte (0..255), the
float samples in `ℚ`. -/
def dnn_input_data (camera_buf : Nat → Nat) : List ℚ :=
  (List.range INPUT_HEIGHT).flatMap (fun h =>
    (List.range INPUT_WIDTH).map (fun w => (camera_buf (h * INPUT_WIDTH + w) : ℚ) / 255))

/-- Flattening the row-major double loop over `range m × range n`. -/
theorem flatMap_row_major (camera_buf : Nat → Nat) (m n : Nat) :
    ((List.range m).flatMap fun h =>
        (List.range n).map (fun w => ((camera_buf (h * n + w) : ℚ) / 255))) =
      (List.range (m * n)).map (fun j => ((camera_buf j : ℚ) / 255)) := by
  induction m with
  | zero => simp
  | succ m ih =>
    rw [List.range_succ, Nat.succ_mul, List.range_add]
    simp only [List.flatMap_append, List.flatMap_cons, List.flatMap_nil, List.append_nil,
      List.map_append, List.map_map, ih]
    rfl

/-- The tensor written by preprocessing, as a map over flat indices. -/
theorem dnn_input_data_eq_map (camera_buf : Nat → Nat) :
    dnn_input_data camera_buf =
      (List.range (INPUT_HEIGHT * INPUT_WIDTH)).map
        (fun j => (camera_buf j : ℚ) / 255) := by
  rw [dnn_input_data]
  exact flatMap_row_major camera_buf INPUT_HEIGHT INPUT_WIDTH

/-- C6: preprocessing writes exactly `INPUT_WIDTH × INPUT_HEIGHT` samples,
sample `j` equals the source pixel `camera_buf j` (0..255) divided by 255,
hence lies in `[0, 1]`, equals 1 only for pixel 255 and 0 only for pixel
0. -/
theorem preprocessing_spec (camera_buf : Nat → Nat) (hb : ∀ j, camera_buf j ≤ 255) :
    (dnn_input_data camera_buf).length = INPUT_WIDTH * INPUT_HEIGHT ∧
    ∀ j, j < INPUT_WIDTH * INPUT_HEIGHT →
      ((dnn_input_data camera_buf).getD j 0 = (camera_buf j : ℚ) / 255 ∧
       0 ≤ (dnn_input_data camera_buf).getD j 0 ∧
       (dnn_input_data camera_buf).getD j 0 ≤ 1 ∧
       ((dnn_input_data camera_buf).getD j 0 = 1 ↔ camera_buf j = 255) ∧
       ((dnn_input_data camera_buf).getD j 0 = 0 ↔ camera_buf j = 0)) := by
  have hlen : (dnn_input_data camera_buf).length = INPUT_WIDTH * INPUT_HEIGHT := by
    rw [dnn_input_data_eq_map, List.length_map, List.length_range, Nat.mul_comm]
  refine ⟨hlen, ?_⟩
  intro j hj
  have hget : (dnn_input_data camera_buf).getD j 0 = (camera_buf j : ℚ) / 255 := by
    rw [dnn_input_data_eq_map]
    have hN : j < ((List.range (INPUT_HEIGHT * INPUT_WIDTH)).map
        (fun j => (camera_buf j : ℚ) / 255)).length := by
      simp only [List.length_map, List.length_range]
      rw [Nat.mul_comm]
      exact hj
    rw [List.getD_eq_getElem _ _ hN, List.getElem_map, List.getElem_range]
  have hub : (camera_buf j : ℚ) ≤ 255 := by
    exact_mod_cast hb j
  refine ⟨hget, ?_, ?_, ?_, ?_⟩
  · rw [hget]
    positivity
  · rw [hget, div_le_one (by norm_num)]
    exact hub
  · rw [hget, div_eq_one_iff_eq (by norm_num : (255 : ℚ) ≠ 0)]
    exact_mod_cast Iff.rfl
  · rw [hget, div_eq_zero_iff]
    constructor
    · rintro (h | h)
      · exact_mod_cast h
      · norm_num at h
    · intro h
      left
      exact_mod_cast h

/-- Witness for C6 at a concrete in-range pixel buffer. -/
theorem preprocessing_spec_witness :
    (dnn_input_data (fun j => j % 256)).length = INPUT_WIDTH * INPUT_HEIGHT :=
  (preprocessing_spec (fun j => j % 256)
      (fun j => Nat.le_of_lt_succ (Nat.mod_lt _ (by norm_num)))).1

/-- Whether a tick's output contains an error-indicator write (under a held
GNSS timeout every such write is a toggle of LED_ERR). -/
def toggled (o : TickOutput) : Bool := !o.led_writes.isEmpty

/-- The blink recurrence of the GNSS-timeout branch, extracted from the
source: at a tick at time `t` with last toggle time `b`, toggle exactly
when `t - b ≥ 1000` (C `uint64_t` difference, `Nat` subtraction here) and
record `t` as the new toggle time. -/
def blinkToggles (b : Nat) : List Nat → List Bool
  | [] => []
  | t :: ts =>
    decide (1000 ≤ t - b) :: blinkToggles (if 1000 ≤ t - b then t else b) ts

/-- One RUNNING tick with the GNSS-timeout flag held and the pipeline
succeeding follows the blink recurrence. -/
theorem loop_blink (i : TickInput) (s : SysState)
    (hs : s.program_sts = PROGRAM_STS_RUNNING) (hg : s.gnss_recevie_timeout = true)
    (h1 : i.captureOk = true) (h2 : i.resizeOk = true) (h3 : i.convertOk = true) :
    ((loop i s).1.last_change_blink_time =
        if 1000 ≤ i.now - s.last_change_blink_time then i.now
        else s.last_change_blink_time) ∧
    toggled (loop i s).2 = decide (1000 ≤ i.now - s.last_change_blink_time) := by
  simp only [loop, toggled]
  split_ifs <;> simp_all

/-- A run of RUNNING ticks with the GNSS-timeout flag held produces exactly
the toggles of the blink recurrence over the tick times. -/
theorem runTicks_blink (ts : List TickInput) (s : SysState)
    (hs : s.program_sts = PROGRAM_STS_RUNNING) (hg : s.gnss_recevie_timeout = true)
    (hok : ∀ i ∈ ts, i.captureOk = true ∧ i.resizeOk = true ∧ i.convertOk = true) :
    (runTicks ts s).2.map toggled =
      blinkToggles s.last_change_blink_time (ts.map TickInput.now) := by
  induction ts generalizing s with
  | nil => simp [runTicks, blinkToggles]
  | cons i ts ih =>
    obtain ⟨h1, h2, h3⟩ := hok i (List.mem_cons_self i ts)
    obtain ⟨hl, ht⟩ := loop_blink i s hs hg h1 h2 h3
    have hs' : (loop i s).1.program_sts = PROGRAM_STS_RUNNING :=
      (loop_program_sts i s).trans hs
    have hg' : (loop i s).1.gnss_recevie_timeout = true :=
      (loop_gnss_flag i s).trans hg
    have hok' : ∀ j ∈ ts, j.captureOk = true ∧ j.resizeOk = true ∧ j.convertOk = true :=
      fun j hj => hok j (List.mem_cons_of_mem i hj)
    have htail := ih (loop i s).1 hs' hg' hok'
    rw [hl] at htail
    simp only [runTicks, List.map_cons, blinkToggles]
    rw [ht, htail]


theorem blinkToggles_length (b : Nat) (ts : List Nat) :
    (blinkToggles b ts).length = ts.length := by
  induction ts generalizing b with
  | nil => rfl
  | cons t ts ih => simp [blinkToggles, ih]

theorem blinkToggles_first (b : Nat) (ts : List Nat) (k : Nat) (hk : k < ts.length)
    (hno : ∀ m, m < k → (blinkToggles b ts).getD m false = false)
    (htog : (blinkToggles b ts).getD k false = true) :
    b + 1000 ≤ ts.getD k 0 := by
  induction ts generalizing b k with
  | nil => simp at hk
  | cons t ts ih =>
    cases k with
    | zero =>
      simp only [blinkToggles, List.getD_cons_zero] at htog
      have hcond : 1000 ≤ t - b := of_decide_eq_true htog
      simp only [List.getD_cons_zero]
      omega
    | succ k =>
      have h0 := hno 0 (Nat.succ_pos k)
      simp only [blinkToggles, List.getD_cons_zero] at h0
      have hcond : ¬ 1000 ≤ t - b := of_decide_eq_false h0
      simp only [blinkToggles, List.getD_cons_succ, if_neg hcond] at htog
      have hno2 : ∀ m, m < k → (blinkToggles b ts).getD m false = false := by
        intro m hm
        have := hno (m + 1) (by omega)
        simpa only [blinkToggles, List.getD_cons_succ, if_neg hcond] using this
      have := ih b k (by simpa using hk) hno2 htog
      simpa only [List.getD_cons_succ] using this

theorem blinkToggles_none_lt (b : Nat) (ts : List Nat) (k : Nat) (hk : k < ts.length)
    (hno : ∀ m, m ≤ k → (blinkToggles b ts).getD m false = false) :
    ts.getD k 0 < b + 1000 := by
  induction ts generalizing b k with
  | nil => simp at hk
  | cons t ts ih =>
    have h0 := hno 0 (Nat.zero_le k)
    simp only [blinkToggles, List.getD_cons_zero] at h0
    have hcond : ¬ 1000 ≤ t - b := of_decide_eq_false h0
    cases k with
    | zero =>
      simp only [List.getD_cons_zero]
      omega
    | succ k =>
      have hno2 : ∀ m, m ≤ k → (blinkToggles b ts).getD m false = false := by
        intro m hm
        have := hno (m + 1) (by omega)
        simpa only [blinkToggles, List.getD_cons_succ, if_neg hcond] using this
      have := ih b k (by simpa using hk) hno2
      simpa only [List.getD_cons_succ] using this

theorem blinkToggles_spacing (b : Nat) (ts : List Nat) (j k : Nat)
    (hjk : j < k) (hk : k < ts.length)
    (hj_tog : (blinkToggles b ts).getD j false = true)
    (hk_tog : (blinkToggles b ts).getD k false = true)
    (hbet : ∀ m, j < m → m < k → (blinkToggles b ts).getD m false = false) :
    ts.getD j 0 + 1000 ≤ ts.getD k 0 := by
  induction ts generalizing b j k with
  | nil => simp at hk
  | cons t ts ih =>
    obtain ⟨k2, rfl⟩ : ∃ k2, k = k2 + 1 := ⟨k - 1, by omega⟩
    have hk2 : k2 < ts.length := by simpa using hk
    cases j with
    | zero =>
      simp only [blinkToggles, List.getD_cons_zero] at hj_tog
      have hcond : 1000 ≤ t - b := of_decide_eq_true hj_tog
      simp only [blinkToggles, List.getD_cons_succ, if_pos hcond] at hk_tog
      have hno : ∀ m, m < k2 → (blinkToggles t ts).getD m false = false := by
        intro m hm
        have := hbet (m + 1) (by omega) (by omega)
        simpa only [blinkToggles, List.getD_cons_succ, if_pos hcond] using this
      have := blinkToggles_first t ts k2 hk2 hno hk_tog
      simpa only [List.getD_cons_zero, List.getD_cons_succ] using this
    | succ j =>
      simp only [blinkToggles, List.getD_cons_succ] at hj_tog hk_tog
      have hbet2 : ∀ m, j < m → m < k2 →
          (blinkToggles (if 1000 ≤ t - b then t else b) ts).getD m false = false := by
        intro m hm1 hm2
        have := hbet (m + 1) (by omega) (by omega)
        simpa only [blinkToggles, List.getD_cons_succ] using this
      have := ih (if 1000 ≤ t - b then t else b) j k2 (by omega) hk2 hj_tog hk_tog hbet2
      simpa only [List.getD_cons_succ] using this

theorem blinkToggles_live (b : Nat) (ts : List Nat)
    (hmono : ts.Pairwise (· ≤ ·)) (hb : ∀ t ∈ ts, b ≤ t) (j k : Nat)
    (hjk : j < k) (hk : k < ts.length)
    (hgap : ts.getD j 0 + 1000 ≤ ts.getD k 0) :
    ∃ m, j < m ∧ m ≤ k ∧ (blinkToggles b ts).getD m false = true := by
  induction ts generalizing b j k with
  | nil => simp at hk
  | cons t ts ih =>
    obtain ⟨k2, rfl⟩ : ∃ k2, k = k2 + 1 := ⟨k - 1, by omega⟩
    have hk2 : k2 < ts.length := by simpa using hk
    have hmono2 : ts.Pairwise (· ≤ ·) := (List.pairwise_cons.mp hmono).2
    have hhead : ∀ u ∈ ts, t ≤ u := (List.pairwise_cons.mp hmono).1
    have hb2 : ∀ u ∈ ts, (if 1000 ≤ t - b then t else b) ≤ u := by
      intro u hu
      split_ifs
      · exact hhead u hu
      · exact hb u (List.mem_cons_of_mem t hu)
    cases j with
    | zero =>
      simp only [List.getD_cons_zero, List.getD_cons_succ] at hgap
      by_cases hfound : ∃ m, m ≤ k2 ∧
          (blinkToggles (if 1000 ≤ t - b then t else b) ts).getD m false = true
      · obtain ⟨m, hm1, hm2⟩ := hfound
        refine ⟨m + 1, by omega, by omega, ?_⟩
        simpa only [blinkToggles, List.getD_cons_succ] using hm2
      · exfalso
        push_neg at hfound
        have hnone : ∀ m, m ≤ k2 →
            (blinkToggles (if 1000 ≤ t - b then t else b) ts).getD m false = false := by
          intro m hm
          have := hfound m hm
          simpa using this
        have hlt := blinkToggles_none_lt (if 1000 ≤ t - b then t else b) ts k2 hk2 hnone
        have hbt : b ≤ t := hb t (List.mem_cons_self t ts)
        have hble : (if 1000 ≤ t - b then t else b) ≤ t := by split_ifs <;> omega
        generalize hB : (if 1000 ≤ t - b then t else b) = B at hlt hble
        omega
    | succ j =>
      simp only [List.getD_cons_succ] at hgap
      obtain ⟨m, hm1, hm2, hm3⟩ :=
        ih (if 1000 ≤ t - b then t else b) hmono2 hb2 j k2 (by omega) hk2 hgap
      refine ⟨m + 1, by omega, by omega, ?_⟩
      simpa only [blinkToggles, List.getD_cons_succ] using hm3


/-- C9: while the GNSS-timeout flag is held set across RUNNING ticks whose
frame pipeline succeeds, with nondecreasing tick times no earlier than the
stored last-toggle time: two error-indicator toggles with no toggle
between them are at least 1000 ms apart (a toggle fires only when 1000 ms
have elapsed since the previous one), and between any two ticks at least
1000 ms apart at least one toggle fires. -/
theorem gnss_blink_timing (s : SysState) (ts : List TickInput)
    (hs : s.program_sts = PROGRAM_STS_RUNNING)
    (hg : s.gnss_recevie_timeout = true)
    (hok : ∀ i ∈ ts, i.captureOk = true ∧ i.resizeOk = true ∧ i.convertOk = true)
    (hmono : (ts.map TickInput.now).Pairwise (· ≤ ·))
    (hinit : ∀ i ∈ ts, s.last_change_blink_time ≤ i.now) :
    (∀ j k, j < k → k < ts.length →
        toggled ((runTicks ts s).2.getD j ⟨[], [], false⟩) = true →
        toggled ((runTicks ts s).2.getD k ⟨[], [], false⟩) = true →
        (∀ m, j < m → m < k →
          toggled ((runTicks ts s).2.getD m ⟨[], [], false⟩) = false) →
        (ts.getD j ⟨0, true, true, true, 0, 0, 0⟩).now + 1000 ≤
          (ts.getD k ⟨0, true, true, true, 0, 0, 0⟩).now) ∧
    (∀ j k, j < k → k < ts.length →
        (ts.getD j ⟨0, true, true, true, 0, 0, 0⟩).now + 1000 ≤
          (ts.getD k ⟨0, true, true, true, 0, 0, 0⟩).now →
        ∃ m, j < m ∧ m ≤ k ∧
          toggled ((runTicks ts s).2.getD m ⟨[], [], false⟩) = true) := by
  have hmap := runTicks_blink ts s hs hg hok
  have htog : ∀ m, toggled ((runTicks ts s).2.getD m ⟨[], [], false⟩) =
      (blinkToggles s.last_change_blink_time (ts.map TickInput.now)).getD m false := by
    intro m
    rw [← hmap]
    exact (List.getD_map _ _ toggled).symm
  have htime : ∀ m, (ts.getD m (⟨0, true, true, true, 0, 0, 0⟩ : TickInput)).now =
      (ts.map TickInput.now).getD m 0 :=
    fun m => (List.getD_map _ _ TickInput.now).symm
  have hball : ∀ u ∈ ts.map TickInput.now, s.last_change_blink_time ≤ u := by
    intro u hu
    obtain ⟨i, hi, rfl⟩ := List.mem_map.mp hu
    exact hinit i hi
  constructor
  · intro j k hjk hk htj htk hbet
    rw [htime j, htime k]
    refine blinkToggles_spacing s.last_change_blink_time (ts.map TickInput.now) j k hjk
      (by simpa using hk) ?_ ?_ ?_
    · rw [← htog j]; exact htj
    · rw [← htog k]; exact htk
    · intro m hm1 hm2
      rw [← htog m]
      exact hbet m hm1 hm2
  · intro j k hjk hk hgap
    obtain ⟨m, hm1, hm2, hm3⟩ :=
      blinkToggles_live s.last_change_blink_time (ts.map TickInput.now) hmono hball j k hjk
        (by simpa using hk) (by rw [← htime j, ← htime k]; exact hgap)
    refine ⟨m, hm1, hm2, ?_⟩
    rw [htog m]
    exact hm3

/-- Witness for C9: two ticks at 1500 ms and 2600 ms, both of which toggle. -/
theorem gnss_blink_timing_witness :
    (([⟨0, true, true, true, 0, 1500, 0⟩, ⟨0, true, true, true, 0, 2600, 0⟩] :
        List TickInput).getD 0 ⟨0, true, true, true, 0, 0, 0⟩).now + 1000 ≤
      (([⟨0, true, true, true, 0, 1500, 0⟩, ⟨0, true, true, true, 0, 2600, 0⟩] :
        List TickInput).getD 1 ⟨0, true, true, true, 0, 0, 0⟩).now :=
  (gnss_blink_timing
      { initialState with program_sts := 1, gnss_recevie_timeout := true }
      [⟨0, true, true, true, 0, 1500, 0⟩, ⟨0, true, true, true, 0, 2600, 0⟩]
      rfl rfl (by decide) (by decide) (by decide)).1 0 1
      (by decide) (by decide) (by decide) (by decide)
      (fun m h1 h2 => absurd h2 (by omega))

end VDrone


